import Mathlib

/-!
Verification of the ldapjs client core, `src/lib/client/client.js`.

The definitions below are a shallow embedding of the client state machine:
the per-transport `messageID` counter, the request queue with its
freeze/flush/purge discipline, the close-time drain of the
pending-request table, the response router (`messageCallback`), the
paged-search driver (`_continuePagedSearch`), the per-request timeout
handler (`onRequestTimeout`), the reconnect-option record built by the
constructor, and the request builders for `compare`, `modifyDN` and
`search`.  Each definition cites the source lines it embeds.
-/

namespace LdapClient

/-- `MAX_MSGID`, client.js line 51: `Math.pow(2, 31) - 1`. -/
def MAX_MSGID : Nat := 2 ^ 31 - 1

/-- `getNextMessageID`, client.js lines 785-790.  The per-transport
counter state starts at 0 (`messageID: 0`, line 783).  The body is
`if (++socket.ldap.messageID >= MAX_MSGID) socket.ldap.messageID = 1;
return socket.ldap.messageID;` — so the argument is the counter state
before the call and the returned value always equals the new state. -/
def getNextMessageID (messageID : Nat) : Nat :=
  if messageID + 1 ≥ MAX_MSGID then 1 else messageID + 1

/-- The `expect` discipline passed to `_send`: the string sentinels
`abandon` and `unbind`, or a list of expected numeric result codes
(client.js lines 248, 304, 340, 377, 409, 449, 517, 568, 655, 686). -/
inductive Expect where
  | abandon
  | unbind
  | codes (cs : List Int)
deriving DecidableEq

/-- Errors delivered through completions.  `connectionClosed` embeds
`new ConnectionError(socket.ldap.id + ' closed')` (line 984);
`clientDestroyed` embeds `new Error('client destroyed')` (line 705);
`queueTimeout` embeds `new Error('RequestQueue timeout')` (line 144);
`serverError` embeds the result of `errors.getError` on an LDAPResult
whose status is outside the expected set (line 1187). -/
inductive LdapErr where
  | connectionClosed (id : String)
  | clientDestroyed
  | queueTimeout
  | protocolError
  | serverError (code : Int) (errorMessage : String)
deriving DecidableEq

/-- One queued request: the tuple `[msg, expect, emitter, cb]` pushed by
`RequestQueue.prototype.enqueue` (line 111).  The message and emitter
are abstracted to an identifier and a flag; the callback is implicit in
how completions are reported. -/
structure QueueItem where
  msg : Nat
  expect : Expect
  hasEmitter : Bool
deriving DecidableEq

/-- The `RequestQueue` state (client.js lines 91-100): `size` is `none`
for `Infinity`, `timeout` is 0 when disabled, `timerArmed` models
`_timer !== null`, `frozen` models `_frozen`. -/
structure RequestQueue where
  size : Option Nat
  timeout : Nat
  queue : List QueueItem
  timerArmed : Bool
  frozen : Bool
deriving DecidableEq

/-- The raw numeric options handed to the `RequestQueue` constructor. -/
structure QueueOpts where
  size : Int
  timeout : Int

/-- The `RequestQueue` constructor (lines 91-100):
`this.size = (opts.size > 0) ? opts.size : Infinity;
this.timeout = (opts.timeout > 0) ? opts.timeout : 0;
this._queue = []; this._timer = null; this._frozen = false;`. -/
def RequestQueue.init (opts : QueueOpts) : RequestQueue :=
  { size := if opts.size > 0 then some opts.size.toNat else none
    timeout := if opts.timeout > 0 then opts.timeout.toNat else 0
    queue := []
    timerArmed := false
    frozen := false }

/-- The capacity test `this._queue.length >= this.size` (line 107);
always false when the size is `Infinity`. -/
def RequestQueue.atCapacity (q : RequestQueue) : Bool :=
  match q.size with
  | some s => decide (q.queue.length ≥ s)
  | none => false

/-- `RequestQueue.prototype.enqueue` (lines 106-122).  Rejects when at
capacity or frozen.  Otherwise pushes the item and then, mirroring the
source exactly, assigns the timer ONLY under the guard
`if (this.timeout > 0) if (this._timer !== null)` — that is, only when
a timer is already armed. -/
def RequestQueue.enqueue (q : RequestQueue) (i : QueueItem) : RequestQueue × Bool :=
  if q.atCapacity || q.frozen then (q, false)
  else
    let q1 := { q with queue := q.queue ++ [i] }
    let q2 := if q1.timeout > 0 && q1.timerArmed then { q1 with timerArmed := true } else q1
    (q2, true)

/-- `RequestQueue.prototype.flush` (lines 127-137): clears the timer,
empties the queue, and hands every entry to the callback in FIFO
order.  Returns the new state and the drained entries. -/
def RequestQueue.flush (q : RequestQueue) : RequestQueue × List QueueItem :=
  ({ q with timerArmed := false, queue := [] }, q.queue)

/-- `RequestQueue.prototype.purge` (lines 142-146): flush where every
entry is completed with the `RequestQueue timeout` error. -/
def RequestQueue.purge (q : RequestQueue) : RequestQueue × List (QueueItem × LdapErr) :=
  let r := q.flush
  (r.1, r.2.map (fun i => (i, LdapErr.queueTimeout)))

/-- `RequestQueue.prototype.freeze` (lines 151-153). -/
def RequestQueue.freeze (q : RequestQueue) : RequestQueue :=
  { q with frozen := true }

/-- `RequestQueue.prototype.thaw` (lines 158-160). -/
def RequestQueue.thaw (q : RequestQueue) : RequestQueue :=
  { q with frozen := false }

/-- The operations exposed by the queue, for reachability arguments. -/
inductive QueueOp where
  | enq (i : QueueItem)
  | flushOp
  | purgeOp
  | freezeOp
  | thawOp

/-- Apply one queue operation to the state. -/
def RequestQueue.applyOp (q : RequestQueue) (op : QueueOp) : RequestQueue :=
  match op with
  | QueueOp.enq i => (q.enqueue i).1
  | QueueOp.flushOp => (q.flush).1
  | QueueOp.purgeOp => (q.purge).1
  | QueueOp.freezeOp => q.freeze
  | QueueOp.thawOp => q.thaw

/-- Apply a sequence of queue operations, oldest first. -/
def RequestQueue.applyOps (q : RequestQueue) (ops : List QueueOp) : RequestQueue :=
  ops.foldl RequestQueue.applyOp q

/-- The slice of Client state relevant to `destroy` and `_onClose`:
`destroyed` (line 700), whether `reconnect` was configured
(lines 197-203), the `connecting` latch guarding `_connect`
(lines 719-721, 941), `connected` (line 215), and the request queue. -/
structure ClientState where
  destroyed : Bool
  reconnect : Bool
  connecting : Bool
  connected : Bool
  queue : RequestQueue
deriving DecidableEq

/-- `Client.prototype.destroy` (lines 699-710): sets `destroyed`,
freezes the queue, and flushes it completing every queued entry with
`new Error('client destroyed')`.  (It then also sends a best-effort
Unbind and emits the `destroy` event, which aborts an in-flight
backoff run.) -/
def Client.destroy (c : ClientState) : ClientState × List (QueueItem × LdapErr) :=
  let q1 := c.queue.freeze
  let r := q1.flush
  ({ c with destroyed := true, queue := r.1 },
   r.2.map (fun i => (i, LdapErr.clientDestroyed)))

/-- Whether a socket `close` event leads to a fresh connection attempt:
`_onClose` ends with `if (had_err && this.reconnect) this._connect();`
(lines 1006-1008) — note there is NO check of `this.destroyed` — and
`_connect` itself only backs out when `this.connecting` is set
(lines 719-721). -/
def onCloseStartsConnect (c : ClientState) (had_err : Bool) : Bool :=
  had_err && c.reconnect && !c.connecting

/-- A control attached to a message: either a PagedResultsControl with
its `value.size` and `value.cookie`, or any other control identified by
its OID.  Cookies are opaque byte lists. -/
inductive Control where
  | paged (size : Nat) (cookie : List Nat)
  | other (oid : String)
deriving DecidableEq

/-- The `instanceof PagedResultsControl` test (lines 1123, 1133). -/
def isPaged : Control → Bool
  | Control.paged _ _ => true
  | Control.other _ => false

/-- The `status` field of an LDAPResult: a numeric result code, or the
string sentinel `unbind` planted on the synthetic UnbindResponse by
`_onClose` (line 990, `err.status = 'unbind'`). -/
inductive Status where
  | code (n : Int)
  | unbindMark
deriving DecidableEq

/-- The messages a pending-request continuation can receive: a
SearchEntry, a SearchReference, an LDAPResult (covering all terminal
responses, including the synthetic timeout result and the synthetic
UnbindResponse), or an Error object (as delivered by `_onClose`).
The messages module is not under src/; modelled from the spec: every
terminal response carries a result code, an error message and
controls, and UnbindResponse is an LDAPResult whose status is the
`unbind` sentinel (in-source comment, line 986: Unbinds will be
communicated as a success since we are closed). -/
inductive Msg where
  | searchEntry (controls : List Control)
  | searchReference (controls : List Control)
  | ldapResult (status : Status) (errorMessage : String) (controls : List Control)
  | errMsg (e : LdapErr)
deriving DecidableEq

/-- The `controls` property read by `_continuePagedSearch` (line 1116);
an Error object has none (`Array.isArray(undefined)` is false). -/
def Msg.controls : Msg → List Control
  | Msg.searchEntry cs => cs
  | Msg.searchReference cs => cs
  | Msg.ldapResult _ _ cs => cs
  | Msg.errMsg _ => []

/-- The `expect.indexOf(msg.status) !== -1` test (line 1186) for each
shape of `expect`: a code list contains a numeric status, and the
string `unbind` contains the status string `unbind` at index 0. -/
def expectMatches : Expect → Status → Bool
  | Expect.codes cs, Status.code n => cs.contains n
  | Expect.codes _, Status.unbindMark => false
  | Expect.unbind, Status.unbindMark => true
  | Expect.unbind, Status.code _ => false
  | Expect.abandon, _ => false

/-- Modelled from the spec: `errors.getError` (the errors module is not
under src/) maps an LDAPResult outside the expected set to the
ServerError variant for its result code, carrying the diagnostic
message. -/
def getError (st : Status) (errorMessage : String) : LdapErr :=
  match st with
  | Status.code n => LdapErr.serverError n errorMessage
  | Status.unbindMark => LdapErr.protocolError

/-- The inner loop of `_continuePagedSearch` (lines 1128-1151): scan the
REQUEST controls for the first PagedResultsControl and overwrite its
cookie (`reqControl.value.cookie = resControl.value.cookie`, line 1135),
leaving its size and all other controls untouched; `none` when the
request carries no PagedResultsControl. -/
def updateFirstPaged (ck : List Nat) : List Control → Option (List Control)
  | [] => none
  | Control.paged sz _ :: rest => some (Control.paged sz ck :: rest)
  | Control.other o :: rest => (updateFirstPaged ck rest).map (fun tail => Control.other o :: tail)

/-- The outer loop of `_continuePagedSearch` (lines 1112-1161) over the
RESPONSE controls: on a PagedResultsControl with a non-empty cookie,
try to update the request and re-send (`conn.write(message.toBer())`,
line 1139, modelled as returning the updated request controls); on an
empty cookie, or when the request has no paged control, keep scanning;
`none` means the search is not continued. -/
def continuePagedSearch (reqCs : List Control) : List Control → Option (List Control)
  | [] => none
  | Control.paged _ ck :: rest =>
      if ck = [] then continuePagedSearch reqCs rest
      else
        match updateFirstPaged ck reqCs with
        | some newReq => some newReq
        | none => continuePagedSearch reqCs rest
  | Control.other _ :: rest => continuePagedSearch reqCs rest

/-- The first PagedResultsControl cookie that is non-empty, scanning a
response control list in order. -/
def firstNonemptyPagedCookie : List Control → Option (List Nat)
  | [] => none
  | Control.paged _ ck :: rest => if ck = [] then firstNonemptyPagedCookie rest else some ck
  | Control.other _ :: rest => firstNonemptyPagedCookie rest

/-- The observable outcome of one `messageCallback` invocation
(lines 1163-1196).  `endNull` is the abandon early-return
(`_done('end', null)`, line 1171); `entryEvent` is a streaming
entry/reference event; `continued` is the paged-search resend with the
updated request controls; `endOk` and `errorOut` are the terminal
completions. -/
inductive Outcome where
  | endNull
  | entryEvent (m : Msg)
  | continued (newReq : List Control)
  | endOk (m : Msg)
  | errorOut (e : LdapErr)
deriving DecidableEq

/-- Whether the table entry `conn.ldap.messages[message.messageID]`
survives the invocation: the delete on line 1181 runs only on the
terminal branch, so entry/reference events, paged continuations (and
the abandon early-return) keep the entry — and with it the same
caller-visible emitter closed over by `messageCallback`. -/
def Outcome.keepsEntry : Outcome → Bool
  | Outcome.endNull => true
  | Outcome.entryEvent _ => true
  | Outcome.continued _ => true
  | Outcome.endOk _ => false
  | Outcome.errorOut _ => false

/-- `messageCallback` (lines 1163-1196), the continuation installed in
the pending-request table for each sent message: abandon early-return;
entry/reference streaming; paged continuation; otherwise remove the
table entry and finish with `end` when the LDAPResult status is in the
expected set, with the mapped server error when it is not, with the
error itself when the delivered message is an Error object, and with a
ProtocolError for any other shape. -/
def messageCallback (expect : Expect) (reqControls : List Control) (msg : Msg) : Outcome :=
  if expect = Expect.abandon then Outcome.endNull
  else
    match msg with
    | Msg.searchEntry _ => Outcome.entryEvent msg
    | Msg.searchReference _ => Outcome.entryEvent msg
    | _ =>
      match continuePagedSearch reqControls msg.controls with
      | some newReq => Outcome.continued newReq
      | none =>
        match msg with
        | Msg.ldapResult st em _ =>
            if expectMatches expect st then Outcome.endOk msg
            else Outcome.errorOut (getError st em)
        | Msg.errMsg e => Outcome.errorOut e
        | _ => Outcome.errorOut LdapErr.protocolError

/-- What `_onClose` delivers to the continuation of one table entry
(lines 981-996): a ConnectionError built from the socket id for every
`messageID` different from `socket.unbindMessageID`, and the synthetic
UnbindResponse with the `unbind` status for the pending Unbind.
`unbindMessageID` is `none` when no Unbind was written (the strict
inequality against `undefined` is then always true).  The id recorded
by `writeCallback` (line 1212) is the `messageID` of the Unbind
request; spec-modelled: the `id` accessor of the messages module
aliases `messageID`. -/
def closeDelivery (unbindMessageID : Option Nat) (sid : String) (msgid : Nat) : Msg :=
  if unbindMessageID = some msgid then Msg.ldapResult Status.unbindMark "" []
  else Msg.errMsg (LdapErr.connectionClosed (sid ++ " closed"))

/-- The `_onClose` drain loop over `Object.keys(socket.ldap.messages)`
(lines 981-1003): each entry is removed and its continuation invoked
once with its `closeDelivery`. -/
def onCloseDrain (u : Option Nat) (sid : String) (table : List (Nat × Expect)) :
    List (Nat × Msg) :=
  table.map (fun e => (e.1, closeDelivery u sid e.1))

/-- Externally visible actions of the timeout handler. -/
inductive ClientAction where
  | emitTimeout
  | invokeContinuation (msgid : Nat) (m : Msg)
  | writeRequest (msgid : Nat)
deriving DecidableEq

/-- The LDAPResult synthesized by `onRequestTimeout` (lines 1201-1204):
`new LDAPResult({status: 80, errorMessage:
'request timeout (client interrupt)'})`. -/
def timeoutResult : Msg :=
  Msg.ldapResult (Status.code 80) "request timeout (client interrupt)" []

/-- `onRequestTimeout` (lines 1198-1206): emit the `timeout` event and,
when the message is still in the table, feed the synthetic LDAPResult
to its continuation.  Nothing is written to the socket: no Abandon PDU
is sent. -/
def onRequestTimeout (table : List (Nat × Expect)) (msgid : Nat) : List ClientAction :=
  ClientAction.emitTimeout ::
    (if (table.map Prod.fst).contains msgid then
      [ClientAction.invokeContinuation msgid timeoutResult]
    else [])

/-- `CMP_EXPECT` (line 50).  Modelled from the spec: the constants
`errors.LDAP_COMPARE_TRUE` and `errors.LDAP_COMPARE_FALSE` (errors
module not under src/) are the RFC 4511 codes 6 and 5. -/
def CMP_EXPECT : List Int := [6, 5]

/-- The completion shape of `compare`: either a matched flag or an
error. -/
inductive CompareResult where
  | ok (matched : Bool)
  | err (e : LdapErr)
deriving DecidableEq

/-- The `compare` completion path (lines 377-382): `_send` with
`CMP_EXPECT`, wrapped so that an error is passed through and a success
yields `res.status === errors.LDAP_COMPARE_TRUE` as the matched flag. -/
def compareCompletion (reqControls : List Control) (st : Status) (em : String) : CompareResult :=
  match messageCallback (Expect.codes CMP_EXPECT) reqControls (Msg.ldapResult st em []) with
  | Outcome.endOk (Msg.ldapResult s _ _) => CompareResult.ok (decide (s = Status.code 6))
  | Outcome.errorOut e => CompareResult.err e
  | _ => CompareResult.err LdapErr.protocolError

/-- A relative distinguished name; spec-modelled: the dn module is not
under src/, a parsed DN is its list of RDNs (possibly empty, as for
the root DSE name). -/
abbrev RDN := String

/-- The ModifyDNRequest fields set by `modifyDN` (lines 555-566). -/
structure ModifyDNReq where
  entry : List RDN
  newRdn : List RDN
  newSuperior : Option (List RDN)
  deleteOldRdn : Bool
deriving DecidableEq

/-- `modifyDN` request construction (lines 552-566), over the parsed
DNs.  The branch condition is `newDN.length !== 1`; in that branch
`newDN.rdns.shift()` removes and returns the first RDN, which becomes
`newRdn`, and the remainder becomes `newSuperior`.  On a zero-RDN new
DN, `shift()` returns `undefined` and the subsequent `.toString()`
throws a TypeError, so no request is built: modelled as `none`.
`deleteOldRdn` is `true` in the constructor options (line 557). -/
def modifyDNBuild (entry newDN : List RDN) : Option ModifyDNReq :=
  if newDN.length ≠ 1 then
    match newDN with
    | [] => none
    | r :: rest =>
        some { entry := entry, newRdn := [r], newSuperior := some rest, deleteOldRdn := true }
  else
    some { entry := entry, newRdn := newDN, newSuperior := none, deleteOldRdn := true }

/-- The `timeLimit` field of the SearchRequest built by `search`
(line 649): `options.timeLimit || 10` — the JavaScript or-default,
which also replaces an explicit 0 (falsy) by 10. -/
def searchTimeLimit (timeLimit : Option Nat) : Nat :=
  match timeLimit with
  | none => 10
  | some t => if t = 0 then 10 else t

/-- `parseInt(v || d, 10)` on an optional numeric option: `undefined`
and 0 are falsy and give the default. -/
def jsFalsyIntOr (v : Option Int) (d : Int) : Int :=
  match v with
  | none => d
  | some n => if n = 0 then d else n

/-- The `this.reconnect` record built by the Client constructor
(lines 197-203), as the JavaScript object it is: the fields actually
set are `initialDelay`, `maxDelay` and `failAfter`. -/
def clientReconnectRecord (initialDelay maxDelay failAfter : Option Int) :
    List (String × Int) :=
  [("initialDelay", jsFalsyIntOr initialDelay 100),
   ("maxDelay", jsFalsyIntOr maxDelay 10000),
   ("failAfter", jsFalsyIntOr failAfter 0)]

/-- JavaScript property access on such a record: `undefined` when the
field was never set. -/
def jsGet (o : List (String × Int)) (k : String) : Option Int :=
  (o.find? (fun p => p.1 == k)).map Prod.snd

/-- The `initialDelay` option handed to `backoff.ExponentialStrategy`
in `_connect` (line 933): the code reads `this.reconnect.minDelay`. -/
def strategyInitialDelayOption (r : List (String × Int)) : Option Int :=
  jsGet r "minDelay"

/-- The bound on connection attempts set in `_connect` (lines 931-940):
with `reconnect` configured, `retry.failAfter(this.reconnect.failAfter
|| Infinity)` (`none` meaning unbounded); without it,
`retry.failAfter(1)`. -/
def connectAttemptBound (reconnect : Option (List (String × Int))) : Option Int :=
  match reconnect with
  | none => some 1
  | some r =>
    match jsGet r "failAfter" with
    | none => none
    | some n => if n = 0 then none else some n

/-! ### Claim C1 — the messageID counter -/

/-- Claim C1, counterexample.  The claim states the counter yields
strictly increasing values up to and including `2^31 - 1` and wraps to
1 only after yielding `2^31 - 1`.  But from counter state `2^31 - 2`
(reached after yielding the value `2^31 - 2`), the code wraps to 1
immediately: the value `2^31 - 1` is never yielded. -/
theorem msgid_wrap_skips_max :
    getNextMessageID (2 ^ 31 - 2) = 1 ∧ (1 : Nat) ≠ 2 ^ 31 - 1 := by
  constructor
  · decide
  · decide

/-- Claim C1, amended.  The counter starts at 0 and the k-th call
yields k while `k < MAX_MSGID`, so the first call yields 1 and values
are strictly increasing up to and including `2^31 - 2`; once the
incremented value would reach `MAX_MSGID = 2^31 - 1` the counter wraps
to 1.  Every yielded value lies in `[1, 2^31 - 2]`, a subset of
`[1, 2^31 - 1]`, and 0 is never yielded. -/
theorem msgid_counter_spec (s k : Nat) :
    (s + 1 < MAX_MSGID → getNextMessageID s = s + 1) ∧
    (s + 1 ≥ MAX_MSGID → getNextMessageID s = 1) ∧
    1 ≤ getNextMessageID s ∧
    getNextMessageID s ≤ MAX_MSGID - 1 ∧
    (k < MAX_MSGID → getNextMessageID^[k] 0 = k) := by
  have hM : MAX_MSGID = 2147483647 := by norm_num [MAX_MSGID]
  have hstep : ∀ t : Nat, getNextMessageID t = if t + 1 ≥ 2147483647 then 1 else t + 1 := by
    intro t
    simp [getNextMessageID, hM]
  refine ⟨?_, ?_, ?_, ?_, ?_⟩
  · intro h
    rw [hstep, if_neg (by omega)]
  · intro h
    rw [hstep, if_pos (by omega)]
  · rw [hstep]
    split <;> omega
  · rw [hstep]
    split <;> omega
  · induction k with
    | zero => intro _; simp
    | succ n ih =>
      intro hk
      rw [Function.iterate_succ_apply', ih (by omega), hstep, if_neg (by omega)]

/-- Claim C1, witness for the amended theorem at concrete inputs. -/
theorem msgid_counter_spec_witness :
    getNextMessageID 5 = 6 ∧ getNextMessageID^[3] 0 = 3 :=
  ⟨(msgid_counter_spec 5 3).1 (by decide),
   (msgid_counter_spec 5 3).2.2.2.2 (by decide)⟩

/-! ### Claim C4 — the request-queue timer -/

/-- Claim C4, code evaluated at the failing input.  The timer is armed
only under the guard `this._timer !== null`, which is false in the
initial state, and the only assignment that could make it non-null is
inside that very guard; so for every sequence of queue operations the
timer stays unarmed — in particular after the enqueue that takes a
fresh queue with a positive timeout from empty to non-empty, which the
claim says must start the timer.  The queue timeout therefore never
fires and the freeze-and-purge on expiry is dead code. -/
theorem queue_timer_never_armed (opts : QueueOpts) (ops : List QueueOp) (i : QueueItem) :
    (RequestQueue.applyOps (RequestQueue.init opts) ops).timerArmed = false ∧
    ((RequestQueue.init { size := 0, timeout := 100 }).enqueue i).2 = true ∧
    ((RequestQueue.init { size := 0, timeout := 100 }).enqueue i).1.queue = [i] ∧
    ((RequestQueue.init { size := 0, timeout := 100 }).enqueue i).1.timerArmed = false := by
  refine ⟨?_, ?_, ?_, ?_⟩
  · have step : ∀ (q : RequestQueue) (op : QueueOp),
        q.timerArmed = false → (q.applyOp op).timerArmed = false := by
      intro q op hq
      cases op with
      | enq j =>
        simp only [RequestQueue.applyOp, RequestQueue.enqueue]
        split
        · exact hq
        · simp [hq]
      | flushOp => simp [RequestQueue.applyOp, RequestQueue.flush]
      | purgeOp => simp [RequestQueue.applyOp, RequestQueue.purge, RequestQueue.flush]
      | freezeOp => simp [RequestQueue.applyOp, RequestQueue.freeze, hq]
      | thawOp => simp [RequestQueue.applyOp, RequestQueue.thaw, hq]
    have main : ∀ (ops : List QueueOp) (q : RequestQueue),
        q.timerArmed = false → (RequestQueue.applyOps q ops).timerArmed = false := by
      intro ops
      induction ops with
      | nil => intro q hq; exact hq
      | cons op rest ih =>
        intro q hq
        exact ih _ (step q op hq)
    exact main ops _ (by simp [RequestQueue.init])
  · simp [RequestQueue.enqueue, RequestQueue.init, RequestQueue.atCapacity]
  · simp [RequestQueue.enqueue, RequestQueue.init, RequestQueue.atCapacity]
  · simp [RequestQueue.enqueue, RequestQueue.init, RequestQueue.atCapacity]

/-! ### Claim C2 — destroy and later reconnects -/

/-- A connected Client configured with reconnect, not currently
connecting, holding `q0` queued requests: the state on which `destroy`
is invoked in the failing scenario of claim C2. -/
def connectedReconnectClient (q0 : List QueueItem) : ClientState :=
  { destroyed := false
    reconnect := true
    connecting := false
    connected := true
    queue := { size := none, timeout := 0, queue := q0, timerArmed := false, frozen := false } }

/-- Claim C2, code evaluated at the failing input.  `destroy` does set
the destroyed flag, freeze the queue and complete every queued entry
with the `client destroyed` error — but a destroyed Client whose
socket later closes with `had_err = true` and `reconnect` configured
STILL starts a new connection attempt, because the guard on
client.js line 1006 never consults `this.destroyed`. -/
theorem destroyed_client_still_reconnects (q0 : List QueueItem) :
    ((Client.destroy (connectedReconnectClient q0)).1).destroyed = true ∧
    (Client.destroy (connectedReconnectClient q0)).2
      = q0.map (fun i => (i, LdapErr.clientDestroyed)) ∧
    ((Client.destroy (connectedReconnectClient q0)).1).queue.frozen = true ∧
    onCloseStartsConnect ((Client.destroy (connectedReconnectClient q0)).1) true = true := by
  refine ⟨rfl, ?_, rfl, rfl⟩
  simp [Client.destroy, connectedReconnectClient, RequestQueue.freeze, RequestQueue.flush]

/-! ### Claim C5 — reconnect backoff options -/

/-- Claim C5, code evaluated at the failing input.  For a Client
constructed with `reconnect = (initialDelay 500, maxDelay 10000)`, the
record built by the constructor carries the field `initialDelay = 500`,
yet the option handed to the exponential strategy is read from the
field `minDelay`, which is never set: the configured initial delay is
silently ignored and the backoff library falls back to its built-in
default.  The remaining parts of the claim hold: with `reconnect`
absent exactly one attempt is made, and with it present the attempt
count is bounded by `failAfter` when non-zero and unbounded
otherwise. -/
theorem reconnect_initialDelay_ignored :
    strategyInitialDelayOption (clientReconnectRecord (some 500) (some 10000) (some 0)) = none ∧
    jsGet (clientReconnectRecord (some 500) (some 10000) (some 0)) "initialDelay" = some 500 ∧
    connectAttemptBound none = some 1 ∧
    connectAttemptBound (some (clientReconnectRecord (some 500) (some 10000) (some 7))) = some 7 ∧
    connectAttemptBound (some (clientReconnectRecord (some 500) (some 10000) (some 0))) = none := by
  refine ⟨?_, ?_, rfl, ?_, ?_⟩ <;> decide

/-! ### Claim C10 — search timeLimit coercion -/

/-- Claim C10.  The `timeLimit` actually sent is 10 whenever the option
is omitted or explicitly 0, and no option value can make it 0: the
protocol value 0 (unlimited) is unreachable. -/
theorem search_timeLimit_default (t : Option Nat) :
    ((t = none ∨ t = some 0) → searchTimeLimit t = 10) ∧ searchTimeLimit t ≠ 0 := by
  constructor
  · rintro (rfl | rfl) <;> simp [searchTimeLimit]
  · cases t with
    | none => simp [searchTimeLimit]
    | some n =>
      simp only [searchTimeLimit]
      split
      · simp
      · omega

/-- Claim C10, witness: an explicit 0 is coerced to 10. -/
theorem search_timeLimit_default_witness : searchTimeLimit (some 0) = 10 :=
  (search_timeLimit_default (some 0)).1 (Or.inr rfl)

/-! ### Helper lemmas on the paged-search driver -/

/-- Whether `updateFirstPaged` succeeds does not depend on the cookie
being written: it only depends on the request carrying a
PagedResultsControl. -/
theorem updateFirstPaged_none_of_none (ck ck2 : List Nat) (l : List Control)
    (h : updateFirstPaged ck l = none) : updateFirstPaged ck2 l = none := by
  induction l with
  | nil => rfl
  | cons c rest ih =>
    cases c with
    | paged sz old => simp [updateFirstPaged] at h
    | other o =>
      simp only [updateFirstPaged, Option.map_eq_none'] at h ⊢
      exact ih h

/-- When no response control is a PagedResultsControl with a non-empty
cookie, the paged driver does not continue the search. -/
theorem continuePagedSearch_of_no_cookie (req resp : List Control)
    (h : firstNonemptyPagedCookie resp = none) :
    continuePagedSearch req resp = none := by
  induction resp with
  | nil => rfl
  | cons c rest ih =>
    cases c with
    | other o =>
      simp only [firstNonemptyPagedCookie] at h
      simpa [continuePagedSearch] using ih h
    | paged sz ck =>
      by_cases hck : ck = []
      · simp only [firstNonemptyPagedCookie, if_pos hck] at h
        simpa [continuePagedSearch, hck] using ih h
      · simp [firstNonemptyPagedCookie, hck] at h

/-- When the first non-empty PagedResults cookie of the response is
`ck`, the paged driver behaves as one `updateFirstPaged ck` on the
request controls. -/
theorem continuePagedSearch_of_cookie (req resp : List Control) :
    ∀ ck : List Nat, firstNonemptyPagedCookie resp = some ck →
      continuePagedSearch req resp = updateFirstPaged ck req := by
  induction resp with
  | nil =>
    intro ck h
    simp [firstNonemptyPagedCookie] at h
  | cons c rest ih =>
    intro ck h
    cases c with
    | other o =>
      simp only [firstNonemptyPagedCookie] at h
      simpa [continuePagedSearch] using ih ck h
    | paged sz ck0 =>
      by_cases hck : ck0 = []
      · simp only [firstNonemptyPagedCookie, if_pos hck] at h
        simpa [continuePagedSearch, hck] using ih ck h
      · simp only [firstNonemptyPagedCookie, if_neg hck, Option.some_inj] at h
        subst h
        simp only [continuePagedSearch, if_neg hck]
        cases hup : updateFirstPaged ck0 req with
        | some newReq => simp
        | none =>
          simp only []
          cases hrest : firstNonemptyPagedCookie rest with
          | none => exact continuePagedSearch_of_no_cookie req rest hrest
          | some ck2 =>
            rw [ih ck2 hrest]
            exact updateFirstPaged_none_of_none ck0 ck2 req hup

/-- `updateFirstPaged` on a request whose first PagedResultsControl sits
after a non-paged prefix: the cookie of that control is replaced, its
size and everything else is untouched. -/
theorem updateFirstPaged_split (ck old : List Nat) (sz : Nat) (pre post : List Control)
    (hpre : ∀ c ∈ pre, isPaged c = false) :
    updateFirstPaged ck (pre ++ Control.paged sz old :: post)
      = some (pre ++ Control.paged sz ck :: post) := by
  induction pre with
  | nil => rfl
  | cons c rest ih =>
    cases c with
    | paged s2 c2 =>
      have := hpre (Control.paged s2 c2) (List.mem_cons_self _ _)
      simp [isPaged] at this
    | other o =>
      have ih2 := ih (fun c hc => hpre c (List.mem_cons_of_mem _ hc))
      simp [updateFirstPaged, List.append_eq, ih2]

/-! ### Claim C7 — paged-search continuation -/

/-- Claim C7.  For a terminal search response: when the response
carries a PagedResults control with a non-empty cookie (the first such
cookie being `ck`) and the original request l carries a PagedResults
control (first one after the non-paged prefix `pre`), the router
outcome is `continued` with exactly that cookie copied into the
request control — same size, same surrounding controls — and the
messageID table entry (and with it the caller-visible sink) is kept.
When no response control carries a non-empty cookie — the control is
absent or its cookie empty — the outcome is terminal: the table entry
is removed and the search ends instead of being re-sent. -/
theorem paged_search_continuation (cs : List Int) (st : Status) (em : String)
    (respCs pre post reqAny : List Control) (sz : Nat) (old ck : List Nat)
    (hpre : ∀ c ∈ pre, isPaged c = false) :
    (firstNonemptyPagedCookie respCs = some ck →
      messageCallback (Expect.codes cs) (pre ++ Control.paged sz old :: post)
          (Msg.ldapResult st em respCs)
        = Outcome.continued (pre ++ Control.paged sz ck :: post) ∧
      Outcome.keepsEntry (Outcome.continued (pre ++ Control.paged sz ck :: post)) = true) ∧
    (firstNonemptyPagedCookie respCs = none →
      Outcome.keepsEntry
        (messageCallback (Expect.codes cs) reqAny (Msg.ldapResult st em respCs)) = false) := by
  constructor
  · intro h
    refine ⟨?_, rfl⟩
    have hcont := continuePagedSearch_of_cookie (pre ++ Control.paged sz old :: post) respCs ck h
    rw [updateFirstPaged_split ck old sz pre post hpre] at hcont
    simp [messageCallback, Msg.controls, hcont]
  · intro h
    have hcont := continuePagedSearch_of_no_cookie reqAny respCs h
    simp only [messageCallback, Msg.controls, hcont]
    split
    · simp at *
    · split <;> simp [Outcome.keepsEntry]

/-- Claim C7, witness: a response whose PagedResults cookie is `[1, 2]`
re-sends the request with that cookie in place, and a response with an
empty cookie terminates. -/
theorem paged_search_continuation_witness :
    messageCallback (Expect.codes [0]) [Control.paged 5 []]
        (Msg.ldapResult (Status.code 0) "" [Control.paged 0 [1, 2]])
      = Outcome.continued [Control.paged 5 [1, 2]] ∧
    Outcome.keepsEntry
      (messageCallback (Expect.codes [0]) [Control.paged 5 []]
        (Msg.ldapResult (Status.code 0) "" [Control.paged 0 []])) = false := by
  constructor
  · exact ((paged_search_continuation [0] (Status.code 0) "" [Control.paged 0 [1, 2]] []
      [] [Control.paged 5 []] 5 [] [1, 2] (by intro c hc; simp at hc)).1 (by decide)).1
  · exact (paged_search_continuation [0] (Status.code 0) "" [Control.paged 0 []] []
      [] [Control.paged 5 []] 5 [] [1, 2] (by intro c hc; simp at hc)).2 (by decide)

/-! ### Claim C3 — close-time drain of the request table -/

/-- Claim C3.  When the transport closes with the request table holding
entries with pairwise distinct messageIDs (object keys are unique),
the drain delivers exactly one completion per table entry: the
delivered list has the same length and the same keys, each key exactly
once; every entry whose messageID differs from the recorded
`unbindMessageID` receives the ConnectionError built from the socket
id, and the entry whose messageID equals it receives the synthetic
UnbindResponse.  Fed to the continuations, the ConnectionError
completes a request with that error, and the UnbindResponse completes
the pending Unbind (whose `expect` is the `unbind` sentinel)
successfully. -/
theorem onClose_resolves_each_entry_once (u : Option Nat) (sid : String)
    (table : List (Nat × Expect)) (cs : List Int) (rc : List Control)
    (hnd : (table.map Prod.fst).Nodup) :
    (onCloseDrain u sid table).length = table.length ∧
    (onCloseDrain u sid table).map Prod.fst = table.map Prod.fst ∧
    ((onCloseDrain u sid table).map Prod.fst).Nodup ∧
    (∀ p ∈ onCloseDrain u sid table, u ≠ some p.1 →
      p.2 = Msg.errMsg (LdapErr.connectionClosed (sid ++ " closed"))) ∧
    (∀ p ∈ onCloseDrain u sid table, u = some p.1 →
      p.2 = Msg.ldapResult Status.unbindMark "" []) ∧
    messageCallback Expect.unbind rc (Msg.ldapResult Status.unbindMark "" [])
      = Outcome.endOk (Msg.ldapResult Status.unbindMark "" []) ∧
    (∀ e : LdapErr, messageCallback (Expect.codes cs) rc (Msg.errMsg e)
      = Outcome.errorOut e) := by
  refine ⟨?_, ?_, ?_, ?_, ?_, ?_, ?_⟩
  · simp [onCloseDrain]
  · simp [onCloseDrain]
  · simpa [onCloseDrain] using hnd
  · intro p hp hne
    simp only [onCloseDrain, List.mem_map] at hp
    obtain ⟨e, _, rfl⟩ := hp
    simp only [closeDelivery]
    rw [if_neg]
    intro hc
    exact hne hc
  · intro p hp heq
    simp only [onCloseDrain, List.mem_map] at hp
    obtain ⟨e, _, rfl⟩ := hp
    simp only [closeDelivery]
    rw [if_pos heq]
  · simp [messageCallback, Msg.controls, continuePagedSearch, expectMatches]
  · intro e
    simp [messageCallback, Msg.controls, continuePagedSearch]

/-- Claim C3, witness: a two-entry table, one ordinary search and the
pending Unbind with messageID 2. -/
theorem onClose_resolves_each_entry_once_witness :
    (onCloseDrain (some 2) "ldap://host" [(1, Expect.codes [0]), (2, Expect.unbind)]).length
      = 2 :=
  (onClose_resolves_each_entry_once (some 2) "ldap://host"
    [(1, Expect.codes [0]), (2, Expect.unbind)] [0] [] (by decide)).1

/-! ### Claim C6 — per-request timeout -/

/-- Claim C6.  When the per-request timer fires while the request is
still in the table, the handler emits the `timeout` event and feeds
the synthesized LDAPResult — resultCode 80, errorMessage
`request timeout (client interrupt)` — to the normal continuation of
the request; it writes nothing to the socket, so no Abandon is sent.
Through `messageCallback`, since 80 is outside the expected codes, the
request completes with the mapped error. -/
theorem request_timeout_local_error (table : List (Nat × Expect)) (msgid : Nat)
    (cs : List Int) (rc : List Control)
    (hmem : (table.map Prod.fst).contains msgid = true)
    (h80 : cs.contains (80 : Int) = false) :
    onRequestTimeout table msgid
      = [ClientAction.emitTimeout, ClientAction.invokeContinuation msgid timeoutResult] ∧
    (∀ a ∈ onRequestTimeout table msgid, ∀ m : Nat, a ≠ ClientAction.writeRequest m) ∧
    messageCallback (Expect.codes cs) rc timeoutResult
      = Outcome.errorOut (LdapErr.serverError 80 "request timeout (client interrupt)") := by
  refine ⟨?_, ?_, ?_⟩
  · unfold onRequestTimeout
    rw [hmem]
    simp
  · intro a ha m
    simp only [onRequestTimeout, hmem, if_pos, List.mem_cons, List.mem_singleton] at ha
    rcases ha with rfl | rfl | h
    · simp
    · simp
    · simp at h
  · have : expectMatches (Expect.codes cs) (Status.code 80) = false := by
      simpa [expectMatches] using h80
    simp [messageCallback, timeoutResult, Msg.controls, continuePagedSearch, this, getError]

/-- Claim C6, witness: a single outstanding add request (expected code
0) with messageID 7 times out. -/
theorem request_timeout_local_error_witness :
    onRequestTimeout [(7, Expect.codes [0])] 7
      = [ClientAction.emitTimeout, ClientAction.invokeContinuation 7 timeoutResult] :=
  (request_timeout_local_error [(7, Expect.codes [0])] 7 [0] [] (by decide) (by decide)).1

/-! ### Claim C8 — compare result mapping -/

/-- Claim C8.  A CompareResponse with resultCode 6 completes the
compare with no error and `matched = true`; resultCode 5 completes
with no error and `matched = false`; any other resultCode completes
with the ServerError mapped from that code (and no matched flag). -/
theorem compare_result_mapping (rc : List Control) (em : String) (n : Int)
    (h6 : n ≠ 6) (h5 : n ≠ 5) :
    compareCompletion rc (Status.code 6) em = CompareResult.ok true ∧
    compareCompletion rc (Status.code 5) em = CompareResult.ok false ∧
    compareCompletion rc (Status.code n) em
      = CompareResult.err (LdapErr.serverError n em) := by
  refine ⟨?_, ?_, ?_⟩
  · simp [compareCompletion, messageCallback, Msg.controls, continuePagedSearch,
      expectMatches, CMP_EXPECT]
  · simp [compareCompletion, messageCallback, Msg.controls, continuePagedSearch,
      expectMatches, CMP_EXPECT]
  · have hm : expectMatches (Expect.codes CMP_EXPECT) (Status.code n) = false := by
      simp [expectMatches, CMP_EXPECT]
      exact ⟨h6, h5⟩
    simp [compareCompletion, messageCallback, Msg.controls, continuePagedSearch, hm, getError]

/-- Claim C8, witness at resultCode 32 (NoSuchObject). -/
theorem compare_result_mapping_witness :
    compareCompletion [] (Status.code 32) "no such object"
      = CompareResult.err (LdapErr.serverError 32 "no such object") :=
  (compare_result_mapping [] "no such object" 32 (by decide) (by decide)).2.2

/-! ### Claim C9 — modifyDN request construction -/

/-- Claim C9, counterexample.  The claim says that whenever the parsed
new DN does not have more than one RDN, the whole new DN becomes
`newRdn` with no `newSuperior`.  For a zero-RDN new DN (the parse of
the empty string) the code instead takes the `length !== 1` branch and
crashes calling `toString` on the result of shifting an empty RDN
list: no such request is built. -/
theorem modifyDN_empty_newdn_counterexample :
    modifyDNBuild ["cn=a"] [] = none ∧
    (none : Option ModifyDNReq)
      ≠ some { entry := ["cn=a"], newRdn := [], newSuperior := none, deleteOldRdn := true } := by
  constructor
  · rfl
  · decide

/-- Claim C9, amended.  If the parsed new DN has more than one RDN, the
request carries its first RDN as `newRdn` and the remaining RDNs as
`newSuperior`; if it has exactly one RDN, the whole new DN becomes
`newRdn` with no `newSuperior`; if it has zero RDNs the call throws
instead of building a request.  Every request built carries
`deleteOldRdn = true`. -/
theorem modifyDN_build (entry : List RDN) (r : RDN) (rest : List RDN) :
    (rest ≠ [] →
      modifyDNBuild entry (r :: rest)
        = some { entry := entry, newRdn := [r], newSuperior := some rest,
                 deleteOldRdn := true }) ∧
    modifyDNBuild entry [r]
      = some { entry := entry, newRdn := [r], newSuperior := none, deleteOldRdn := true } ∧
    modifyDNBuild entry [] = none := by
  refine ⟨?_, ?_, rfl⟩
  · intro hrest
    have hlen : (r :: rest).length ≠ 1 := by
      cases rest with
      | nil => exact absurd rfl hrest
      | cons a t =>
        simp only [List.length_cons]
        omega
    simp [modifyDNBuild, hlen, hrest]
  · simp [modifyDNBuild]

/-- Claim C9, witness: a two-RDN new DN is split, a one-RDN new DN is
kept whole. -/
theorem modifyDN_build_witness :
    modifyDNBuild ["cn=a", "dc=x"] ["cn=b", "dc=y"]
      = some { entry := ["cn=a", "dc=x"], newRdn := ["cn=b"], newSuperior := some ["dc=y"],
               deleteOldRdn := true } :=
  (modifyDN_build ["cn=a", "dc=x"] "cn=b" ["dc=y"]).1 (by decide)

end LdapClient
